import Mathlib

/-!
Shallow embedding of the Spotify-Desktop-Control repository:
a FastAPI proxy (src/backend/main.py, src/backend/spotify_client.py)
and a Qt control window (src/GUI/player.py, src/GUI/api_client.py).

Pure logic is translated directly; network calls are modelled as
emitted call descriptions, and the provider as an `Except String`
outcome parameter.  Machine integers are `Int` (Python ints are
unbounded, so no wrapping is needed).
-/

namespace SpotifyCtl

/-! ## Backend: SpotifyClient (src/backend/spotify_client.py) -/

namespace SpotifyClient

/-- `set_volume` (spotify_client.py:63-65): the value forwarded to
`self.sp.volume` after `volume_percent = max(0, min(100, int(volume_percent)))`. -/
def set_volume (volume_percent : Int) : Int :=
  max 0 (min 100 volume_percent)

/-- The three repeat modes accepted by `set_repeat` (spotify_client.py:72). -/
def validRepeatModes : List String := ["off", "track", "context"]

/-- `set_repeat` (spotify_client.py:70-74): the mode forwarded to
`self.sp.repeat` after the `if mode not in (...)` normalization. -/
def set_repeat (mode : String) : String :=
  if mode ∈ validRepeatModes then mode else "off"

/-- `clear_queue` (spotify_client.py:115-120): unconditionally raises
`RuntimeError`.  Modelled as an `Except` that is always `.error`. -/
def clear_queue : Except String Unit :=
  .error "Clearing the queue is not supported by the Spotify API."

end SpotifyClient

/-! ## Backend: FastAPI endpoints (src/backend/main.py)

Each handler wraps one client call in `try/except`, re-raising any
exception as an `HTTPException` (status 500 everywhere except
`/queue/clear`, which uses 400). -/

/-- Outcome of an endpoint handler: a successful JSON body of type `α`,
or an `HTTPException` with a status code and a textual detail. -/
inductive EndpointResult (α : Type) where
  | ok : α → EndpointResult α
  | httpError : Nat → String → EndpointResult α
  deriving DecidableEq, Repr

/-- Raw device entry as read from the provider's `devices()` response
(main.py:136-147 projects these five fields). -/
structure RawDevice where
  id : Option String
  name : Option String
  kind : Option String
  is_active : Option Bool
  volume_percent : Option Int
  deriving DecidableEq, Repr

namespace Backend

/-- POST `/queue/clear` handler (main.py:264-275): calls
`sp_client.clear_queue()`; on success would return `{"status":"ok"}`,
on exception raises `HTTPException(status_code=400, detail=str(e))`. -/
def clear_queue : EndpointResult Unit :=
  match SpotifyClient.clear_queue with
  | .ok _ => .ok ()
  | .error e => .httpError 400 e

/-- Body of GET `/playback/state`: either the empty object `{}` (when the
provider returned `None`) or the provider's playback snapshot, passed
through.  `α` stands for the provider's snapshot type. -/
inductive StateBody (α : Type) where
  | empty : StateBody α
  | snapshot : α → StateBody α
  deriving DecidableEq, Repr

/-- GET `/playback/state` handler (main.py:45-51): `return playback or {}`
inside try/except → 500. `provider` is the outcome of
`sp_client.get_playback_state()` (`.ok none` = nothing playing). -/
def get_playback_state {α : Type} (provider : Except String (Option α)) :
    EndpointResult (StateBody α) :=
  match provider with
  | .error e => .httpError 500 e
  | .ok none => .ok .empty
  | .ok (some p) => .ok (.snapshot p)

/-- GET `/devices` handler (main.py:130-150): `raw.get("devices", []) if
raw else []`, then the falsy entries (`if not d: continue`) are skipped
and the rest projected.  `provider` is the outcome of
`sp_client.get_devices()`; the devices list holds `Option RawDevice`
so that `None`/falsy entries can be represented. -/
def get_devices (provider : Except String (Option (List (Option RawDevice)))) :
    EndpointResult (List RawDevice) :=
  match provider with
  | .error e => .httpError 500 e
  | .ok none => .ok []
  | .ok (some ds) => .ok (ds.filterMap id)

end Backend

/-! ## GUI data model (fields of the playback snapshot that
src/GUI/player.py reads) -/

/-- One album-art image entry (`images[0]["url"]`, player.py:1394). -/
structure ArtImage where
  url : String
  deriving DecidableEq, Repr

/-- Album: `track.get("album")` with `name` and `images` (player.py:1360,1393). -/
structure Album where
  name : Option String
  images : List ArtImage
  deriving DecidableEq, Repr

/-- Track: the fields of `playback["item"]` the window reads
(player.py:1356-1366).  Artists are modelled as the list of artist
names (`a.get("name", "")` supplies `""` for a missing name). -/
structure Track where
  id : Option String
  name : Option String
  artists : List String
  album : Option Album
  duration_ms : Option Int
  uri : Option String
  deriving DecidableEq, Repr

/-- Device snapshot: only `volume_percent` is read by
`apply_playback_state` (player.py:1413-1414). -/
structure Device where
  volume_percent : Option Int
  deriving DecidableEq, Repr

/-- Playback snapshot as consumed by `apply_playback_state`
(player.py:1334-1418).  `item = none` covers both the empty dict `{}`
and an absent/null `item`. -/
structure Playback where
  is_playing : Bool
  item : Option Track
  progress_ms : Option Int
  device : Option Device
  deriving DecidableEq, Repr

/-! ## GUI window state (the widget values and instance attributes of
`SpotifyPlayerWindow` that the claims are about, player.py:755-772) -/

/-- The window's displayed widgets and bookkeeping attributes. -/
structure UIState where
  track_label : String
  time_label : String
  progress_slider : Int
  play_pause_button : String
  volume_slider : Int
  shuffle_button : String
  status_label : String
  shuffle_state : Bool
  current_track_duration_ms : Int
  current_track_uri : Option String
  current_playlist_id : Option String
  progress_slider_is_dragging : Bool
  last_track_id : Option String
  pending_album_url : Option String
  last_is_playing : Bool
  deriving DecidableEq, Repr

/-- One call to the backend through `api_client` (src/GUI/api_client.py)
or through `playback_net.get` (the async playback-state fetch). -/
inductive ApiCall where
  | playbackState
  | play
  | pause
  | next
  | previous
  | seek (position_ms : Int)
  | volume (volume_percent : Int)
  | shuffle (state : Bool)
  | repeatMode (mode : String)
  | devices
  | transfer (device_id : String)
  | playlists
  | playlistTracks (playlist_id : String)
  | playPlaylist (playlist_id : String) (device_id : Option String)
  | addTrack (playlist_id : String) (track_uri : String)
  | removeTrack (playlist_id : String) (track_uri : String)
  | queueGet
  | queueClear
  deriving DecidableEq, Repr

/-- Whether a call mutates provider state (everything except the five
read endpoints). -/
def ApiCall.isMutating : ApiCall → Bool
  | .playbackState | .devices | .playlists | .playlistTracks _ | .queueGet => false
  | _ => true

/-- Number of mutating calls in an emitted call list. -/
def mutCount (calls : List ApiCall) : Nat :=
  (calls.filter ApiCall.isMutating).length

/-- What a UI action handler did: the `api_client` calls it issued (in
order) and whether it invoked `fetch_playback_state()` afterwards. -/
structure ActionTrace where
  calls : List ApiCall
  refetch : Bool
  deriving DecidableEq, Repr

namespace SpotifyPlayerWindow

/-- Two-digit zero padding, Python's `f"{n:02d}"` for `n ≥ 0`. -/
def pad2 (n : Nat) : String :=
  if n < 10 then "0" ++ toString n else toString n

/-- `ms_to_mmss` (player.py:1420-1427): `None` or non-positive → `"--:--"`,
otherwise minutes:seconds of `int(ms / 1000)`. -/
def ms_to_mmss (ms : Option Int) : String :=
  match ms with
  | none => "--:--"
  | some m =>
    if m ≤ 0 then "--:--"
    else
      let seconds := (m / 1000).toNat
      pad2 (seconds / 60) ++ ":" ++ pad2 (seconds % 60)

/-- The art URL chosen for a track (player.py:1393-1394):
`images = (track.get("album") or {}).get("images") or []`;
`image_url = images[0]["url"] if images else None`. -/
def trackArtUrl (t : Track) : Option String :=
  match t.album with
  | none => none
  | some al =>
    match al.images with
    | [] => none
    | img :: _ => some img.url

/-- `set_album_art_from_url` (player.py:1045-1056).  Returns the updated
state and the number of network art fetches issued (0 or 1):
a falsy URL clears the art without a fetch; a URL equal to the pending
one is an early return; otherwise one `album_net.get` is issued. -/
def set_album_art_from_url (s : UIState) (url : Option String) :
    UIState × Nat :=
  match url with
  | none => ({ s with pending_album_url := none }, 0)
  | some u =>
    if s.pending_album_url = some u then (s, 0)
    else ({ s with pending_album_url := some u }, 1)

/-- `_apply_playback_error` (player.py:1060-1077): blanks the now-playing
display to the explicit error state and writes the status line. -/
def apply_playback_error (s : UIState) (msg : String) : UIState :=
  { s with
      track_label := "Error talking to backend",
      time_label := "--:-- / --:--",
      progress_slider := 0,
      play_pause_button := "▶ Play",
      status_label := "Backend error: " ++ msg }

/-- The `if not playback or not playback.get("item")` branch of
`apply_playback_state` (player.py:1335-1352): blanks the now-playing
display.  Note it resets the slider to 0 regardless of the drag flag
and does not touch `last_track_id` or `_last_is_playing`. -/
def applyEmptyPlayback (s : UIState) : UIState :=
  { s with
      track_label := "Nothing playing. Start playback in Spotify.",
      time_label := "--:-- / --:--",
      progress_slider := 0,
      play_pause_button := "▶ Play",
      current_track_duration_ms := 0,
      current_track_uri := none }

/-- Track-info paragraph of `apply_playback_state` (player.py:1354-1366):
records `_last_is_playing`, the track label, URI and duration. -/
def trackInfoStep (s : UIState) (is_playing : Bool) (t : Track) : UIState :=
  { s with
      last_is_playing := is_playing,
      track_label :=
        t.name.getD "Unknown" ++ " — " ++ String.intercalate ", " t.artists,
      current_track_uri := t.uri,
      current_track_duration_ms := t.duration_ms.getD 0 }

/-- "Only update album art + queue if track changed" paragraph
(player.py:1391-1397): on an id change, one `set_album_art_from_url`
and one `load_queue` (counted as one queue refresh), then
`last_track_id` is recorded.  Returns (state, art fetches, queue
refreshes).  `last_track_id` and `pending_album_url` are untouched by
the earlier paragraphs, so reading them from the current state matches
the source's reads of `self.last_track_id`/`self._pending_album_url`. -/
def artQueueStep (s : UIState) (t : Track) : UIState × Nat × Nat :=
  if t.id ≠ s.last_track_id then
    let r := set_album_art_from_url s (trackArtUrl t)
    ({ r.1 with last_track_id := t.id }, r.2, 1)
  else (s, 0, 0)

/-- Play/pause-button and time-label paragraph (player.py:1399-1405). -/
def buttonsTimeStep (s : UIState) (is_playing : Bool)
    (progress_ms duration_ms : Int) : UIState :=
  { s with
      play_pause_button := if is_playing then "⏸ Pause" else "▶ Play",
      time_label :=
        ms_to_mmss (some progress_ms) ++ " / " ++ ms_to_mmss (some duration_ms) }

/-- "Progress slider (unless user is dragging it)" paragraph
(player.py:1407-1410): `int(progress_ms / float(duration_ms) * 1000)`,
modelled with exact integer arithmetic.  The drag flag is untouched by
the earlier paragraphs, so reading it from the current state matches
the source. -/
def sliderStep (s : UIState) (progress_ms duration_ms : Int) : UIState :=
  if ¬ s.progress_slider_is_dragging ∧ 0 < duration_ms then
    { s with progress_slider := progress_ms * 1000 / duration_ms }
  else s

/-- "Volume from device" paragraph (player.py:1412-1418):
`(playback.get("device") or {}).get("volume_percent")`, applied only
when present and in [0,100]. -/
def volumeStep (s : UIState) (device : Option Device) : UIState :=
  match device.bind (fun d => d.volume_percent) with
  | some v => if 0 ≤ v ∧ v ≤ 100 then { s with volume_slider := v } else s
  | none => s

/-- `apply_playback_state` (player.py:1334-1418), as the composition of
the paragraphs above in source order.  Returns the updated window state
together with the number of album-art network fetches and of queue
refreshes issued.  The decorative cassette-widget updates are not
modelled. -/
def apply_playback_state (s : UIState) (pb : Playback) :
    UIState × Nat × Nat :=
  match pb.item with
  | none => (applyEmptyPlayback s, 0, 0)
  | some t =>
    let progress_ms := pb.progress_ms.getD 0
    let duration_ms := t.duration_ms.getD 0
    let s1 := trackInfoStep s pb.is_playing t
    let r2 := artQueueStep s1 t
    let s3 := buttonsTimeStep r2.1 pb.is_playing progress_ms duration_ms
    let s4 := sliderStep s3 progress_ms duration_ms
    let s5 := volumeStep s4 pb.device
    (s5, r2.2)

/-- Python truthiness test for an optional string: `not x` is true for
`None` and for the empty string. -/
def pyFalsy : Option String → Bool
  | none => true
  | some s => s = ""

/-! ### UI action handlers (player.py:1097-1330)

Each handler is modelled as a function of the window state, its inputs,
and the outcome of its mutating backend call (`ok = false` means the
`api_client` call raised with message `err`).  It returns the updated
window state and an `ActionTrace`: the backend calls issued and whether
`fetch_playback_state()` was invoked afterwards.  Widget-list contents
(queue list, playlist lists, device combo) and the UI effects of the
follow-up *read* calls are not modelled; only the read call's emission
is recorded. -/

/-- `on_prev_clicked` (player.py:1109-1115). -/
def on_prev_clicked (s : UIState) (ok : Bool) (err : String) :
    UIState × ActionTrace :=
  let s' :=
    if ok then { s with status_label := "Previous track" }
    else { s with status_label := "Error previous: " ++ err }
  (s', { calls := [.previous], refetch := true })

/-- `on_play_pause_clicked` (player.py:1117-1129): pauses when
`_last_is_playing`, plays otherwise; always re-fetches state. -/
def on_play_pause_clicked (s : UIState) (ok : Bool) (err : String) :
    UIState × ActionTrace :=
  let call : ApiCall := if s.last_is_playing then .pause else .play
  let s' :=
    if ok then
      { s with status_label := if s.last_is_playing then "Pause" else "Play" }
    else { s with status_label := "Error play/pause: " ++ err }
  (s', { calls := [call], refetch := true })

/-- `on_next_clicked` (player.py:1132-1138). -/
def on_next_clicked (s : UIState) (ok : Bool) (err : String) :
    UIState × ActionTrace :=
  let s' :=
    if ok then { s with status_label := "Next track" }
    else { s with status_label := "Error next: " ++ err }
  (s', { calls := [.next], refetch := true })

/-- `on_slider_pressed` (player.py:1140-1141). -/
def on_slider_pressed (s : UIState) : UIState :=
  { s with progress_slider_is_dragging := true }

/-- `on_slider_released` (player.py:1143-1158): clears the drag flag;
returns early when the known duration is not positive; otherwise seeks
to `int(self.current_track_duration_ms * (value / 1000.0))` — modelled
with exact integer arithmetic, which for the slider's non-negative
0..1000 value and a positive duration agrees with Python's
float-truncating `int(...)` up to float rounding — and re-fetches. -/
def on_slider_released (s : UIState) (ok : Bool) (err : String) :
    UIState × ActionTrace :=
  let s0 := { s with progress_slider_is_dragging := false }
  if s.current_track_duration_ms ≤ 0 then
    (s0, { calls := [], refetch := false })
  else
    let new_pos_ms := s.current_track_duration_ms * s.progress_slider / 1000
    let s' :=
      if ok then { s0 with status_label := "Seek" }
      else { s0 with status_label := "Error seek: " ++ err }
    (s', { calls := [.seek new_pos_ms], refetch := true })

/-- `on_volume_released` (player.py:1162-1168): sends the slider's value;
does NOT invoke `fetch_playback_state`. -/
def on_volume_released (s : UIState) (ok : Bool) (err : String) :
    UIState × ActionTrace :=
  let v := s.volume_slider
  let s' :=
    if ok then
      { s with status_label := "Volume set to " ++ toString v ++ "%" }
    else { s with status_label := "Error volume: " ++ err }
  (s', { calls := [.volume v], refetch := false })

/-- `on_shuffle_clicked` (player.py:1171-1182). -/
def on_shuffle_clicked (s : UIState) (checked : Bool) (ok : Bool)
    (err : String) : UIState × ActionTrace :=
  let s0 := { s with shuffle_state := checked }
  let s' :=
    if ok then
      { s0 with
          shuffle_button := if checked then "Shuffle: On" else "Shuffle: Off",
          status_label := if checked then "Shuffle on" else "Shuffle off" }
    else { s0 with status_label := "Error shuffle: " ++ err }
  (s', { calls := [.shuffle checked], refetch := false })

/-- `on_repeat_changed` (player.py:1184-1190): `mode` is the combo item's
data. -/
def on_repeat_changed (s : UIState) (mode : String) (ok : Bool)
    (err : String) : UIState × ActionTrace :=
  let s' :=
    if ok then { s with status_label := "Repeat mode: " ++ mode }
    else { s with status_label := "Error repeat: " ++ err }
  (s', { calls := [.repeatMode mode], refetch := false })

/-- `on_device_changed` (player.py:1215-1223): a falsy device id returns
without any call. -/
def on_device_changed (s : UIState) (device_id : Option String) (ok : Bool)
    (err : String) : UIState × ActionTrace :=
  if pyFalsy device_id then (s, { calls := [], refetch := false })
  else
    let s' :=
      if ok then { s with status_label := "Switched device" }
      else { s with status_label := "Error switching device: " ++ err }
    (s', { calls := [.transfer (device_id.getD "")], refetch := false })

/-- `on_play_playlist` (player.py:1274-1283): guarded on a selected
playlist; `device_id` comes from the device combo's current data. -/
def on_play_playlist (s : UIState) (device_id : Option String) (ok : Bool)
    (err : String) : UIState × ActionTrace :=
  if pyFalsy s.current_playlist_id then
    ({ s with status_label := "Select a playlist first" },
     { calls := [], refetch := false })
  else
    let pid := s.current_playlist_id.getD ""
    let s' :=
      if ok then { s with status_label := "Playing playlist" }
      else { s with status_label := "Error playing playlist: " ++ err }
    (s', { calls := [.playPlaylist pid device_id], refetch := false })

/-- `on_add_current_to_playlist` (player.py:1295-1310): guarded on a
selected playlist and a current track; on success it refreshes the
playlist's track list (a read). -/
def on_add_current_to_playlist (s : UIState) (ok : Bool) (err : String) :
    UIState × ActionTrace :=
  if pyFalsy s.current_playlist_id then
    ({ s with status_label := "Select a playlist first" },
     { calls := [], refetch := false })
  else if pyFalsy s.current_track_uri then
    ({ s with status_label := "No current track" },
     { calls := [], refetch := false })
  else
    let pid := s.current_playlist_id.getD ""
    let uri := s.current_track_uri.getD ""
    if ok then
      ({ s with status_label := "Added current track to playlist" },
       { calls := [.addTrack pid uri, .playlistTracks pid], refetch := false })
    else
      ({ s with status_label := "Error adding track: " ++ err },
       { calls := [.addTrack pid uri], refetch := false })

/-- `on_remove_selected_track` (player.py:1312-1330): `selected` is
`none` when no track row is selected, otherwise the row's stored URI
(itself possibly `None`). -/
def on_remove_selected_track (s : UIState) (selected : Option (Option String))
    (ok : Bool) (err : String) : UIState × ActionTrace :=
  if pyFalsy s.current_playlist_id then
    ({ s with status_label := "Select a playlist first" },
     { calls := [], refetch := false })
  else
    match selected with
    | none =>
      ({ s with status_label := "Select a track to remove" },
       { calls := [], refetch := false })
    | some track_uri =>
      if pyFalsy track_uri then
        ({ s with status_label := "No track URI" },
         { calls := [], refetch := false })
      else
        let pid := s.current_playlist_id.getD ""
        let uri := track_uri.getD ""
        if ok then
          ({ s with status_label := "Removed track from playlist" },
           { calls := [.removeTrack pid uri, .playlistTracks pid],
             refetch := false })
        else
          ({ s with status_label := "Error removing track: " ++ err },
           { calls := [.removeTrack pid uri], refetch := false })

/-- `on_clear_queue` (player.py:1097-1105): attempts the clear, writes a
status either way, then reloads the queue (a read) unconditionally. -/
def on_clear_queue (s : UIState) (ok : Bool) (err : String) :
    UIState × ActionTrace :=
  let s' :=
    if ok then
      { s with status_label :=
          "Tried to clear queue (Spotify API may not fully support this)." }
    else { s with status_label := "Error clearing queue: " ++ err }
  (s', { calls := [.queueClear, .queueGet], refetch := false })

end SpotifyPlayerWindow

/-! ## Playback polling state machine (player.py:969-1018)

A 2-second `QTimer` and every transport action invoke
`fetch_playback_state`; the `_playback_in_flight` flag suppresses a new
request while one is outstanding, and `_on_playback_reply` clears the
flag first thing on any reply (success or failure). -/

/-- The in-flight flag together with the number of playback-state
requests actually outstanding on the network manager. -/
structure PollState where
  inFlight : Bool
  outstanding : Nat
  deriving DecidableEq, Repr

/-- Events driving the polling machine: `fetch` is any invocation of
`fetch_playback_state` (timer tick or user action), `reply` is the
delivery of a reply to `_on_playback_reply` (success or failure). -/
inductive PollEvent where
  | fetch
  | reply
  deriving DecidableEq, Repr

/-- `fetch_playback_state` (player.py:984-993): returns immediately when
a request is in flight; otherwise sets the flag and issues one request. -/
def fetch_playback_state (s : PollState) : PollState :=
  if s.inFlight then s
  else { inFlight := true, outstanding := s.outstanding + 1 }

/-- `_on_playback_reply` (player.py:996-997): the flag is cleared on the
first line, before any branch on success or failure, and the delivered
request is no longer outstanding. -/
def on_playback_reply (s : PollState) : PollState :=
  { inFlight := false, outstanding := s.outstanding - 1 }

/-- One step of the polling machine. -/
def pollStep (s : PollState) : PollEvent → PollState
  | .fetch => fetch_playback_state s
  | .reply => on_playback_reply s

/-- Run the machine over a sequence of events. -/
def pollRun (s : PollState) : List PollEvent → PollState
  | [] => s
  | e :: es => pollRun (pollStep s e) es

/-- Initial state (player.py:771: `self._playback_in_flight = False`,
no request issued yet). -/
def initPollState : PollState := { inFlight := false, outstanding := 0 }

/-- The machine's invariant: at most one request outstanding, and the
flag tracks exactly whether one is. -/
def pollInv (s : PollState) : Prop :=
  s.outstanding ≤ 1 ∧ (s.inFlight = true ↔ s.outstanding = 1)

/-- Agreement on the four displayed now-playing widgets (track label,
time label, slider position, play/pause button text). -/
def displayedEq (a b : UIState) : Prop :=
  a.track_label = b.track_label ∧ a.time_label = b.time_label ∧
    a.progress_slider = b.progress_slider ∧
    a.play_pause_button = b.play_pause_button

/-- A neutral window state used as a base for concrete test states. -/
def baseUI : UIState :=
  { track_label := "Nothing playing. Start playback in Spotify."
    time_label := "--:-- / --:--"
    progress_slider := 0
    play_pause_button := "▶ Play"
    volume_slider := 50
    shuffle_button := "Shuffle: Off"
    status_label := ""
    shuffle_state := false
    current_track_duration_ms := 0
    current_track_uri := none
    current_playlist_id := none
    progress_slider_is_dragging := false
    last_track_id := none
    pending_album_url := none
    last_is_playing := false }

/-- A concrete track used for witnesses. -/
def sampleTrack : Track :=
  { id := some "t1"
    name := some "Song"
    artists := ["A"]
    album := some { name := some "Al", images := [{ url := "http-art-t1" }] }
    duration_ms := some 200000
    uri := some "spotify:track:t1" }

/-- A concrete playing snapshot over `sampleTrack` with a chosen device. -/
def pbDev (d : Option Device) : Playback :=
  { is_playing := true, item := some sampleTrack, progress_ms := some 1000,
    device := d }

/-- The empty playback snapshot (`{}`: nothing playing). -/
def emptyPb : Playback :=
  { is_playing := false, item := none, progress_ms := none, device := none }

/-- A window state in the middle of a seek drag with a known duration. -/
def dragUI : UIState :=
  { baseUI with
      progress_slider_is_dragging := true,
      progress_slider := 500,
      current_track_duration_ms := 200000 }

/-- A window state with a selected playlist and a current track. -/
def plUI : UIState :=
  { baseUI with
      current_playlist_id := some "p",
      current_track_uri := some "spotify:track:t1" }

/-- A window state that has already seen track "a" with pending art URL
"u". -/
def c6State : UIState :=
  { baseUI with last_track_id := some "a", pending_album_url := some "u" }

/-- A different track ("b") whose album art URL coincides with the
pending URL "u" (e.g. another track of the same album). -/
def c6Track : Track :=
  { id := some "b"
    name := some "Song B"
    artists := ["X"]
    album := some { name := some "Album", images := [{ url := "u" }] }
    duration_ms := some 1000
    uri := some "spotify:track:b" }

end SpotifyCtl

/-! ## Theorems -/

namespace SpotifyCtl

open SpotifyPlayerWindow

/-- C1: the POST `/queue/clear` handler always yields HTTP 400 with a
textual message (the `RuntimeError` text raised by
`SpotifyClient.clear_queue`), and in particular never HTTP 500:
the underlying operation unconditionally raises, so the success branch
and the 500 status are unreachable. -/
theorem clear_queue_always_400 :
    Backend.clear_queue
      = .httpError 400 "Clearing the queue is not supported by the Spotify API." :=
  rfl

/-- C2: the volume forwarded by `SpotifyClient.set_volume` is the input
clamped into [0,100]: inputs below 0 become 0, inputs above 100 become
100, and in-range inputs pass through unchanged. -/
theorem set_volume_clamps (v : Int) :
    (v < 0 → SpotifyClient.set_volume v = 0) ∧
    (100 < v → SpotifyClient.set_volume v = 100) ∧
    (0 ≤ v → v ≤ 100 → SpotifyClient.set_volume v = v) := by
  unfold SpotifyClient.set_volume
  refine ⟨fun h => ?_, fun h => ?_, fun h h' => ?_⟩ <;> omega

/-- Witness for C2 at the concrete inputs −7, 250 and 55. -/
theorem set_volume_clamps_witness :
    SpotifyClient.set_volume (-7) = 0 ∧
      SpotifyClient.set_volume 250 = 100 ∧
      SpotifyClient.set_volume 55 = 55 :=
  ⟨(set_volume_clamps (-7)).1 (by decide),
   (set_volume_clamps 250).2.1 (by decide),
   (set_volume_clamps 55).2.2 (by decide) (by decide)⟩

/-- C3: `SpotifyClient.set_repeat` forwards a mode outside
{off, track, context} as "off" and forwards any of those three
unchanged. -/
theorem set_repeat_normalizes (m : String) :
    (m ∉ SpotifyClient.validRepeatModes → SpotifyClient.set_repeat m = "off") ∧
    (m ∈ SpotifyClient.validRepeatModes → SpotifyClient.set_repeat m = m) := by
  unfold SpotifyClient.set_repeat
  exact ⟨fun h => by simp [h], fun h => by simp [h]⟩

/-- Witness for C3 at the concrete modes "banana" and "track". -/
theorem set_repeat_normalizes_witness :
    SpotifyClient.set_repeat "banana" = "off" ∧
      SpotifyClient.set_repeat "track" = "track" :=
  ⟨(set_repeat_normalizes "banana").1 (by decide),
   (set_repeat_normalizes "track").2 (by decide)⟩

/-- Single-step preservation of the polling invariant. -/
lemma pollStep_preserves {s : PollState} (hs : pollInv s) (e : PollEvent) :
    pollInv (pollStep s e) := by
  obtain ⟨hle, hiff⟩ := hs
  cases e with
  | fetch =>
    unfold pollStep fetch_playback_state
    by_cases h : s.inFlight
    · simp only [h, if_true]
      exact ⟨hle, hiff⟩
    · simp only [h, if_false]
      have : s.outstanding ≠ 1 := fun h1 => h (hiff.mpr h1)
      constructor
      · simp; omega
      · simp; omega
  | reply =>
    unfold pollStep on_playback_reply
    constructor
    · simp; omega
    · simp; omega

/-- The invariant holds along every run. -/
lemma pollRun_preserves (es : List PollEvent) {s : PollState}
    (hs : pollInv s) : pollInv (pollRun s es) := by
  induction es generalizing s with
  | nil => exact hs
  | cons e es ih => exact ih (pollStep_preserves hs e)

/-- C4: in every state reachable from the initial window state by any
sequence of `fetch_playback_state` invocations (timer ticks or user
actions) and reply deliveries, at most one playback-state request is
outstanding, and the in-flight flag is set exactly while one is. -/
theorem at_most_one_outstanding (es : List PollEvent) :
    (pollRun initPollState es).outstanding ≤ 1 ∧
      ((pollRun initPollState es).inFlight = true ↔
        (pollRun initPollState es).outstanding = 1) :=
  pollRun_preserves es (by constructor <;> simp [initPollState])

/-- C7: the read endpoints return an empty-shape success when the
provider returns nothing: GET `/playback/state` yields the empty object
when the provider reports nothing playing, and GET `/devices` yields an
empty device list when the provider returns `None` or no devices. -/
theorem read_endpoints_empty_success :
    Backend.get_playback_state (α := Playback) (.ok none) = .ok .empty ∧
      Backend.get_devices (.ok none) = .ok [] ∧
      Backend.get_devices (.ok (some [])) = .ok [] :=
  ⟨rfl, rfl, rfl⟩

/-- Closed form of `set_album_art_from_url`: the pending URL always
becomes the requested URL (in the early-return case it already was),
and a fetch is issued exactly when the URL is present and differs from
the pending one. -/
lemma set_album_art_eq (s : UIState) (u : Option String) :
    set_album_art_from_url s u
      = ({ s with pending_album_url := u },
         match u with
         | none => 0
         | some v => if s.pending_album_url = some v then 0 else 1) := by
  unfold set_album_art_from_url
  cases u with
  | none => rfl
  | some v =>
    dsimp only
    by_cases h : s.pending_album_url = some v
    · rw [if_pos h, if_pos h, ← h]
    · rw [if_neg h, if_neg h]

/-- Closed form of the art/queue paragraph. -/
lemma artQueueStep_eq (s : UIState) (t : Track) :
    artQueueStep s t
      = if t.id = s.last_track_id then (s, 0, 0)
        else ({ s with pending_album_url := trackArtUrl t, last_track_id := t.id },
              (match trackArtUrl t with
               | none => 0
               | some v => if s.pending_album_url = some v then 0 else 1), 1) := by
  unfold artQueueStep
  by_cases h : t.id = s.last_track_id
  · simp [h]
  · simp [h, set_album_art_eq]

/-- The art/queue paragraph never touches the volume slider. -/
lemma artQueueStep_volume (s : UIState) (t : Track) :
    (artQueueStep s t).1.volume_slider = s.volume_slider := by
  rw [artQueueStep_eq]; split <;> rfl

/-- The art/queue paragraph never touches the progress slider. -/
lemma artQueueStep_progress (s : UIState) (t : Track) :
    (artQueueStep s t).1.progress_slider = s.progress_slider := by
  rw [artQueueStep_eq]; split <;> rfl

/-- The art/queue paragraph never touches the drag flag. -/
lemma artQueueStep_dragging (s : UIState) (t : Track) :
    (artQueueStep s t).1.progress_slider_is_dragging
      = s.progress_slider_is_dragging := by
  rw [artQueueStep_eq]; split <;> rfl

/-- The slider paragraph never touches the volume slider. -/
lemma sliderStep_volume (s : UIState) (p d : Int) :
    (sliderStep s p d).volume_slider = s.volume_slider := by
  unfold sliderStep; split <;> rfl

/-- While the drag flag is set, the slider paragraph leaves the
progress slider unchanged. -/
lemma sliderStep_progress_dragging (s : UIState) (p d : Int)
    (h : s.progress_slider_is_dragging = true) :
    (sliderStep s p d).progress_slider = s.progress_slider := by
  unfold sliderStep
  rw [if_neg (by simp [h])]

/-- The volume paragraph's effect on the volume slider. -/
lemma volumeStep_volume (s : UIState) (dev : Option Device) :
    (volumeStep s dev).volume_slider
      = match dev.bind (fun d => d.volume_percent) with
        | some v => if 0 ≤ v ∧ v ≤ 100 then v else s.volume_slider
        | none => s.volume_slider := by
  unfold volumeStep
  cases hdv : dev.bind (fun d => d.volume_percent) with
  | none => rfl
  | some v => by_cases h : 0 ≤ v ∧ v ≤ 100 <;> simp [h]

/-- The volume paragraph never touches the progress slider. -/
lemma volumeStep_progress (s : UIState) (dev : Option Device) :
    (volumeStep s dev).progress_slider = s.progress_slider := by
  unfold volumeStep
  cases hdv : dev.bind (fun d => d.volume_percent) with
  | none => rfl
  | some v => by_cases h : 0 ≤ v ∧ v ≤ 100 <;> simp [h]

/-- `apply_playback_state` on a snapshot with an item, written as the
explicit composition of its paragraphs. -/
lemma apply_item_eq (s : UIState) (ip : Bool) (t : Track)
    (prog : Option Int) (dev : Option Device) :
    apply_playback_state s
        { is_playing := ip, item := some t, progress_ms := prog, device := dev }
      = (volumeStep
           (sliderStep
             (buttonsTimeStep (artQueueStep (trackInfoStep s ip t) t).1 ip
               (prog.getD 0) (t.duration_ms.getD 0))
             (prog.getD 0) (t.duration_ms.getD 0))
           dev,
         (artQueueStep (trackInfoStep s ip t) t).2) := rfl

/-- The track-info paragraph never touches `last_track_id`. -/
lemma trackInfoStep_last (s : UIState) (ip : Bool) (t : Track) :
    (trackInfoStep s ip t).last_track_id = s.last_track_id := rfl

/-- The track-info paragraph never touches the pending art URL. -/
lemma trackInfoStep_pending (s : UIState) (ip : Bool) (t : Track) :
    (trackInfoStep s ip t).pending_album_url = s.pending_album_url := rfl

/-- The final volume-slider value of `apply_playback_state` on a
snapshot with an item, as a function of the device volume. -/
lemma apply_volume_formula (s : UIState) (pb : Playback) (t : Track)
    (hitem : pb.item = some t) :
    (apply_playback_state s pb).1.volume_slider
      = match pb.device.bind (fun d => d.volume_percent) with
        | some v => if 0 ≤ v ∧ v ≤ 100 then v else s.volume_slider
        | none => s.volume_slider := by
  obtain ⟨ip, item, prog, dev⟩ := pb
  dsimp only at hitem
  subst hitem
  rw [apply_item_eq]
  dsimp only
  rw [volumeStep_volume]
  have hS : (sliderStep
      (buttonsTimeStep (artQueueStep (trackInfoStep s ip t) t).1 ip
        (prog.getD 0) (t.duration_ms.getD 0))
      (prog.getD 0) (t.duration_ms.getD 0)).volume_slider = s.volume_slider := by
    rw [sliderStep_volume]
    show (artQueueStep (trackInfoStep s ip t) t).1.volume_slider = s.volume_slider
    rw [artQueueStep_volume]
    exact rfl
  rw [hS]

/-- The art-fetch and queue-refresh counts of `apply_playback_state` on
a snapshot with an item. -/
lemma apply_item_counts (s : UIState) (ip : Bool) (t : Track)
    (prog : Option Int) (dev : Option Device) :
    (apply_playback_state s
        { is_playing := ip, item := some t, progress_ms := prog,
          device := dev }).2
      = if t.id = s.last_track_id then (0, 0)
        else ((match trackArtUrl t with
               | none => 0
               | some u => if s.pending_album_url = some u then 0 else 1), 1) := by
  show (artQueueStep (trackInfoStep s ip t) t).2 = _
  rw [artQueueStep_eq]
  simp only [trackInfoStep_last, trackInfoStep_pending]
  by_cases h : t.id = s.last_track_id
  · rw [if_pos h, if_pos h]
  · rw [if_neg h, if_neg h]

/-- C10: for an applied snapshot with a playing item, the volume slider
takes the device's `volume_percent` exactly when it is present and in
[0,100]; it is left unchanged when the value is absent or out of
range. -/
theorem volume_slider_from_device (s : UIState) (pb : Playback) (t : Track)
    (hitem : pb.item = some t) :
    (∀ v, pb.device.bind (fun d => d.volume_percent) = some v →
        ((0 ≤ v ∧ v ≤ 100 →
            (apply_playback_state s pb).1.volume_slider = v) ∧
         (¬ (0 ≤ v ∧ v ≤ 100) →
            (apply_playback_state s pb).1.volume_slider = s.volume_slider))) ∧
    (pb.device.bind (fun d => d.volume_percent) = none →
        (apply_playback_state s pb).1.volume_slider = s.volume_slider) := by
  refine ⟨fun v hv => ⟨fun hr => ?_, fun hr => ?_⟩, fun hn => ?_⟩ <;>
    rw [apply_volume_formula s pb t hitem]
  · rw [hv]; exact if_pos hr
  · rw [hv]; exact if_neg hr
  · rw [hn]

/-- Witness for C10: device volume 75 is applied; 150 (out of range) and
an absent device leave the slider at its prior value. -/
theorem volume_slider_from_device_witness :
    (apply_playback_state baseUI
        (pbDev (some { volume_percent := some 75 }))).1.volume_slider = 75 ∧
    (apply_playback_state baseUI
        (pbDev (some { volume_percent := some 150 }))).1.volume_slider
      = baseUI.volume_slider ∧
    (apply_playback_state baseUI (pbDev none)).1.volume_slider
      = baseUI.volume_slider :=
  ⟨((volume_slider_from_device baseUI
        (pbDev (some { volume_percent := some 75 })) sampleTrack rfl).1
      75 rfl).1 (by decide),
   ((volume_slider_from_device baseUI
        (pbDev (some { volume_percent := some 150 })) sampleTrack rfl).1
      150 rfl).2 (by decide),
   (volume_slider_from_device baseUI (pbDev none) sampleTrack rfl).2 rfl⟩

/-- C5 counterexample: with the seek-drag flag set and the slider at
500, applying the polled snapshot `{}` (nothing playing) resets the
displayed slider to 0, so a polled snapshot can alter the displayed
position during a drag. -/
theorem seek_drag_counterexample :
    dragUI.progress_slider_is_dragging = true ∧
    (apply_playback_state dragUI emptyPb).1.progress_slider = 0 ∧
    dragUI.progress_slider ≠ 0 := by
  refine ⟨rfl, rfl, by decide⟩

/-- C5 (amended): while the seek-drag flag is set, applying a polled
snapshot that contains a playing item leaves the displayed slider
position unchanged (a snapshot with no item resets it to 0 even during
a drag); and on slider release with a known positive track duration the
seek position sent to the backend is
`int(duration_ms * (slider_value / 1000))`. -/
theorem seek_drag_guard (s : UIState) (pb : Playback) (ok : Bool)
    (err : String) :
    (s.progress_slider_is_dragging = true → pb.item.isSome = true →
        (apply_playback_state s pb).1.progress_slider = s.progress_slider) ∧
    (0 < s.current_track_duration_ms →
        (on_slider_released s ok err).2.calls
          = [.seek (s.current_track_duration_ms * s.progress_slider / 1000)]) := by
  constructor
  · intro hdrag hsome
    obtain ⟨ip, item, prog, dev⟩ := pb
    cases item with
    | none => simp at hsome
    | some t =>
      rw [apply_item_eq]
      dsimp only
      rw [volumeStep_progress]
      have hS3 : (buttonsTimeStep (artQueueStep (trackInfoStep s ip t) t).1 ip
          (prog.getD 0) (t.duration_ms.getD 0)).progress_slider_is_dragging
            = true := by
        show (artQueueStep (trackInfoStep s ip t) t).1.progress_slider_is_dragging
          = true
        rw [artQueueStep_dragging]; exact hdrag
      rw [sliderStep_progress_dragging _ _ _ hS3]
      show (artQueueStep (trackInfoStep s ip t) t).1.progress_slider
        = s.progress_slider
      rw [artQueueStep_progress]
      exact rfl
  · intro hdur
    unfold on_slider_released
    rw [if_neg (by omega)]

/-- Witness for C5 at a dragging state with duration 200000 and slider
500. -/
theorem seek_drag_guard_witness :
    (apply_playback_state dragUI (pbDev none)).1.progress_slider
        = dragUI.progress_slider ∧
    (on_slider_released dragUI true "").2.calls
        = [.seek (dragUI.current_track_duration_ms
            * dragUI.progress_slider / 1000)] :=
  ⟨(seek_drag_guard dragUI (pbDev none) true "").1 rfl rfl,
   (seek_drag_guard dragUI (pbDev none) true "").2 (by decide)⟩

/-- C6 counterexample: after seeing track "a" with pending art URL "u",
a snapshot of a different track "b" whose art URL is also "u" issues a
queue refresh but zero album-art fetches, contradicting "exactly one
album-art fetch" on a track-id change. -/
theorem track_change_counterexample :
    c6Track.id ≠ c6State.last_track_id ∧
    (apply_playback_state c6State
        { is_playing := true, item := some c6Track, progress_ms := some 0,
          device := none }).2 = (0, 1) := by
  refine ⟨by decide, rfl⟩

/-- C6 (amended): for consecutive applied snapshots, an unchanged track
id issues no album-art fetch and no queue refresh; a changed track id
issues exactly one queue refresh, and exactly one album-art fetch when
the new track's art URL is present and differs from the currently
pending art URL — but none when the art URL is absent or equals the
pending one. -/
theorem track_change_fetches (s : UIState) (pb : Playback) (t : Track)
    (hitem : pb.item = some t) :
    (t.id = s.last_track_id → (apply_playback_state s pb).2 = (0, 0)) ∧
    (t.id ≠ s.last_track_id →
        (apply_playback_state s pb).2
          = ((match trackArtUrl t with
              | none => 0
              | some u => if s.pending_album_url = some u then 0 else 1), 1)) := by
  obtain ⟨ip, item, prog, dev⟩ := pb
  dsimp only at hitem
  subst hitem
  constructor
  · intro h
    rw [apply_item_counts, if_pos h]
  · intro h
    rw [apply_item_counts, if_neg h]

/-- Witness for C6: an unchanged id issues nothing; a changed id with a
fresh art URL issues one art fetch and one queue refresh. -/
theorem track_change_fetches_witness :
    (apply_playback_state { baseUI with last_track_id := some "t1" }
        (pbDev none)).2 = (0, 0) ∧
    (apply_playback_state baseUI (pbDev none)).2 = (1, 1) :=
  ⟨(track_change_fetches { baseUI with last_track_id := some "t1" }
      (pbDev none) sampleTrack rfl).1 (by decide),
   ((track_change_fetches baseUI (pbDev none) sampleTrack rfl).2
      (by decide)).trans (by decide)⟩

/-- C8 counterexample: the volume-release handler issues its single
mutating call but does not invoke `fetch_playback_state` afterwards, so
not every user control action is followed by a playback-state
re-fetch. -/
theorem action_refetch_counterexample :
    mutCount (on_volume_released baseUI true "").2.calls = 1 ∧
    (on_volume_released baseUI true "").2.refetch = false :=
  ⟨rfl, rfl⟩

/-- C8 (amended): every listed user control action issues exactly one
mutating call whether it succeeds or fails, but only the transport
actions (play/pause toggle, next, previous) are followed by an
unconditional playback-state re-fetch; volume release, shuffle toggle,
repeat selection, device selection, playlist play/add/remove and queue
clear issue no playback re-fetch (queue clear and a successful playlist
add/remove instead refresh their own lists with a read call). -/
theorem action_dispatch (s : UIState) (ok checked : Bool)
    (err m d p u : String) (dev : Option String) :
    (mutCount (on_play_pause_clicked s ok err).2.calls = 1 ∧
      (on_play_pause_clicked s ok err).2.refetch = true) ∧
    (mutCount (on_next_clicked s ok err).2.calls = 1 ∧
      (on_next_clicked s ok err).2.refetch = true) ∧
    (mutCount (on_prev_clicked s ok err).2.calls = 1 ∧
      (on_prev_clicked s ok err).2.refetch = true) ∧
    (mutCount (on_volume_released s ok err).2.calls = 1 ∧
      (on_volume_released s ok err).2.refetch = false) ∧
    (mutCount (on_shuffle_clicked s checked ok err).2.calls = 1 ∧
      (on_shuffle_clicked s checked ok err).2.refetch = false) ∧
    (mutCount (on_repeat_changed s m ok err).2.calls = 1 ∧
      (on_repeat_changed s m ok err).2.refetch = false) ∧
    (d ≠ "" →
      mutCount (on_device_changed s (some d) ok err).2.calls = 1 ∧
        (on_device_changed s (some d) ok err).2.refetch = false) ∧
    (s.current_playlist_id = some p → p ≠ "" →
      (mutCount (on_play_playlist s dev ok err).2.calls = 1 ∧
        (on_play_playlist s dev ok err).2.refetch = false) ∧
      (s.current_track_uri = some u → u ≠ "" →
        mutCount (on_add_current_to_playlist s ok err).2.calls = 1 ∧
          (on_add_current_to_playlist s ok err).2.refetch = false) ∧
      (u ≠ "" →
        mutCount (on_remove_selected_track s (some (some u)) ok err).2.calls = 1 ∧
          (on_remove_selected_track s (some (some u)) ok err).2.refetch = false)) ∧
    (mutCount (on_clear_queue s ok err).2.calls = 1 ∧
      (on_clear_queue s ok err).2.refetch = false) := by
  refine ⟨?_, ⟨rfl, rfl⟩, ⟨rfl, rfl⟩, ⟨rfl, rfl⟩, ⟨rfl, rfl⟩, ⟨rfl, rfl⟩,
    ?_, ?_, ⟨rfl, rfl⟩⟩
  · cases hb : s.last_is_playing <;>
      simp [on_play_pause_clicked, hb, mutCount, ApiCall.isMutating]
  · intro hd
    simp [on_device_changed, pyFalsy, hd, mutCount, ApiCall.isMutating]
  · intro hpid hp
    refine ⟨?_, fun huri hu => ?_, fun hu => ?_⟩
    · simp [on_play_playlist, pyFalsy, hpid, hp, mutCount, ApiCall.isMutating]
    · cases ok <;>
        simp [on_add_current_to_playlist, pyFalsy, hpid, hp, huri, hu,
          mutCount, ApiCall.isMutating]
    · cases ok <;>
        simp [on_remove_selected_track, pyFalsy, hpid, hp, hu,
          mutCount, ApiCall.isMutating]

/-- Witness for C8 with a selected playlist "p", current track
"spotify:track:t1", device "d1" and track row "spotify:track:t2". -/
theorem action_dispatch_witness :
    (mutCount (on_device_changed plUI (some "d1") true "").2.calls = 1 ∧
      (on_device_changed plUI (some "d1") true "").2.refetch = false) ∧
    (mutCount (on_play_playlist plUI none true "").2.calls = 1 ∧
      (on_play_playlist plUI none true "").2.refetch = false) ∧
    (mutCount (on_add_current_to_playlist plUI true "").2.calls = 1 ∧
      (on_add_current_to_playlist plUI true "").2.refetch = false) ∧
    (mutCount (on_remove_selected_track plUI
        (some (some "spotify:track:t2")) true "").2.calls = 1 ∧
      (on_remove_selected_track plUI
        (some (some "spotify:track:t2")) true "").2.refetch = false) := by
  have h := action_dispatch plUI true true "" "off" "d1" "p" "spotify:track:t2"
    none
  have hpl := h.2.2.2.2.2.2.2.1 rfl (by decide)
  refine ⟨h.2.2.2.2.2.2.1 (by decide), hpl.1, ?_, hpl.2.2 (by decide)⟩
  exact (action_dispatch plUI true true "" "off" "d1" "p" "spotify:track:t1"
    none).2.2.2.2.2.2.2.1 rfl (by decide) |>.2.1 rfl (by decide)

/-- C9: a failing non-poll action writes only its one-line status
message — the track label, time label, slider position and play/pause
button are untouched (the shuffle handler additionally records the
toggled shuffle flag, and the slider-release handler clears the drag
flag, neither of which is displayed) — while a failing playback-state
poll blanks the now-playing display to the explicit error state. -/
theorem failure_status_only (s : UIState) (err m : String) (checked : Bool)
    (dev : Option String) (sel : Option (Option String)) :
    ((on_prev_clicked s false err).1
        = { s with status_label := "Error previous: " ++ err }) ∧
    ((on_play_pause_clicked s false err).1
        = { s with status_label := "Error play/pause: " ++ err }) ∧
    ((on_next_clicked s false err).1
        = { s with status_label := "Error next: " ++ err }) ∧
    ((on_volume_released s false err).1
        = { s with status_label := "Error volume: " ++ err }) ∧
    ((on_repeat_changed s m false err).1
        = { s with status_label := "Error repeat: " ++ err }) ∧
    ((on_clear_queue s false err).1
        = { s with status_label := "Error clearing queue: " ++ err }) ∧
    ((on_shuffle_clicked s checked false err).1
        = { s with shuffle_state := checked,
                   status_label := "Error shuffle: " ++ err }) ∧
    displayedEq (on_device_changed s dev false err).1 s ∧
    displayedEq (on_play_playlist s dev false err).1 s ∧
    displayedEq (on_add_current_to_playlist s false err).1 s ∧
    displayedEq (on_remove_selected_track s sel false err).1 s ∧
    displayedEq (on_slider_released s false err).1 s ∧
    ((apply_playback_error s err).track_label = "Error talking to backend" ∧
      (apply_playback_error s err).time_label = "--:-- / --:--" ∧
      (apply_playback_error s err).progress_slider = 0 ∧
      (apply_playback_error s err).play_pause_button = "▶ Play" ∧
      (apply_playback_error s err).status_label = "Backend error: " ++ err) := by
  refine ⟨rfl, rfl, rfl, rfl, rfl, rfl, rfl, ?_, ?_, ?_, ?_, ?_,
    rfl, rfl, rfl, rfl, rfl⟩
  · unfold on_device_changed displayedEq
    split <;> simp
  · unfold on_play_playlist displayedEq
    split <;> simp
  · unfold on_add_current_to_playlist displayedEq
    split <;> [skip; split] <;> simp
  · unfold on_remove_selected_track displayedEq
    cases sel with
    | none => split <;> simp
    | some track_uri =>
      split
      · simp
      · dsimp only
        split <;> simp
  · unfold on_slider_released displayedEq
    split <;> simp

end SpotifyCtl
